import Mathlib

/-!
Verification development for the MICAPP voice-dictation helper.

The definitions below are a shallow embedding of the Go source:
`wav_helper.go` (WAV container encoding) and `openai_client.go`
(session controller, transcription queue, retry/cancellation
protocol).  External collaborators (the Whisper HTTP client, the
ffmpeg MP3 conversion, and the asynchronously-set cancellation flag)
are modelled as oracles: the nth client call result, the MP3
conversion result, and the value returned by the kth read of the
shared `shouldCancel` flag.
-/

/-! ## WAV container (wav_helper.go) -/

/-- Little-endian encoding of a 16-bit value, as written by
`binary.Write(&buf, binary.LittleEndian, ...)` for a `uint16` field. -/
def u16le (n : Nat) : List Nat :=
  [n % 256, n / 256 % 256]

/-- Little-endian encoding of a 32-bit value, as written by
`binary.Write(&buf, binary.LittleEndian, ...)` for a `uint32` field. -/
def u32le (n : Nat) : List Nat :=
  [n % 256, n / 256 % 256, n / 65536 % 256, n / 16777216 % 256]

/-- `CreateWAVFile` from `wav_helper.go`: builds the 44-byte RIFF/WAVE
header followed by the raw PCM bytes.  Go `uint32`/`uint16` arithmetic
is rendered with explicit reductions modulo 2^32 and 2^16. -/
def CreateWAVFile (pcmData : List Nat) (sampleRate : Nat) (numChannels : Nat) : List Nat :=
  let dataSize := pcmData.length % 4294967296
  let fileSize := (36 + dataSize) % 4294967296
  let bitsPerSample := 16
  let byteRate := sampleRate * numChannels * bitsPerSample % 4294967296 / 8
  let blockAlign := numChannels * bitsPerSample % 65536 / 8
  [82, 73, 70, 70] ++ u32le fileSize ++
  [87, 65, 86, 69] ++ [102, 109, 116, 32] ++
  u32le 16 ++ u16le 1 ++ u16le numChannels ++ u32le sampleRate ++
  u32le byteRate ++ u16le blockAlign ++ u16le bitsPerSample ++
  [100, 97, 116, 97] ++ u32le dataSize ++ pcmData

/-- The header fields recovered when decoding a WAV container. -/
structure WAVHeaderFields where
  sampleRate : Nat
  numChannels : Nat
  bitsPerSample : Nat
  dataSize : Nat
deriving DecidableEq

/-- Modelled from the spec: the repository contains no WAV decoder, so
this reads the fields of the documented fallback container layout back
from the encoded bytes (little-endian channel count at byte offset 22,
sample rate at offset 24, bits per sample at offset 34, data size at
offset 40); it fails on inputs shorter than the 44-byte header. -/
def decodeWAVHeader (l : List Nat) : Option WAVHeaderFields :=
  match l with
  | _r1 :: _r2 :: _r3 :: _r4 :: _s1 :: _s2 :: _s3 :: _s4 ::
    _w1 :: _w2 :: _w3 :: _w4 :: _f1 :: _f2 :: _f3 :: _f4 ::
    _c1 :: _c2 :: _c3 :: _c4 :: _a1 :: _a2 :: n1 :: n2 ::
    r1 :: r2 :: r3 :: r4 :: _b1 :: _b2 :: _b3 :: _b4 ::
    _g1 :: _g2 :: p1 :: p2 :: _d1 :: _d2 :: _d3 :: _d4 ::
    z1 :: z2 :: z3 :: z4 :: _rest =>
      some ⟨r1 + 256 * r2 + 65536 * r3 + 16777216 * r4,
            n1 + 256 * n2,
            p1 + 256 * p2,
            z1 + 256 * z2 + 65536 * z3 + 16777216 * z4⟩
  | _ => none

/-! ## Retry loop (transcribeWithRetry, openai_client.go lines 793-829) -/

/-- The structural rendering of the value returned by
`transcribeWithRetry`: a transcription, the "transcription canceled"
error, or the "transcription failed after 3 attempts" error carrying
the last underlying error. -/
inductive RetryResult where
  | ok (text : String)
  | canceled
  | failed (lastErr : Option String)
deriving DecidableEq

/-- Outcome of a run of the retry loop: its result, the number of
calls made to the Transcription Client, and the number of reads of the
shared cancel flag it consumed. -/
structure RetryOutcome where
  result : RetryResult
  calls : Nat
  reads : Nat
deriving DecidableEq

/-- `maxRetries` from `transcribeWithRetry`. -/
def maxRetries : Nat := 3

/-- The body of the `for attempt := 1; attempt <= maxRetries` loop of
`transcribeWithRetry`.  `rem` counts the attempts still allowed
(incl. the current one), `reads` and `calls` count the cancel-flag
reads and client calls consumed so far, `lastErr` is the last client
error.  `client n` is the result of the (n+1)st client call and
`cancels k` the value read from the cancel flag at the (k+1)st read. -/
def retryLoop (client : Nat → Except String String) (cancels : Nat → Bool) :
    Nat → Nat → Nat → Option String → RetryOutcome
  | 0, reads, calls, lastErr => ⟨.failed lastErr, calls, reads⟩
  | rem + 1, reads, calls, _ =>
    if cancels reads then
      ⟨.canceled, calls, reads + 1⟩
    else
      match client calls with
      | .ok t => ⟨.ok t, calls + 1, reads + 1⟩
      | .error e =>
        if 0 < rem then
          if cancels (reads + 1) then
            ⟨.canceled, calls + 1, reads + 2⟩
          else
            retryLoop client cancels rem (reads + 2) (calls + 1) (some e)
        else
          ⟨.failed (some e), calls + 1, reads + 1⟩

/-- `transcribeWithRetry` from `openai_client.go`: up to `maxRetries`
attempts, a cancel-flag read before each attempt and before each
retry. -/
def transcribeWithRetry (client : Nat → Except String String) (cancels : Nat → Bool) :
    RetryOutcome :=
  retryLoop client cancels maxRetries 0 0 none

/-! ## Session state (AppState, openai_client.go) -/

/-- Which recording-control button is currently active. -/
inductive ButtonId where
  | record
  | add
deriving DecidableEq

/-- The fields of `AppState` relevant to the session controller, the
transcription queue and the text sink. -/
structure SessionState where
  correctedText : String
  transcriptionQueue : List String
  queueIndicators : Nat
  statusText : String
  activeButton : Option ButtonId
  recordButtonText : String
  addButtonText : String
  shouldCancel : Bool
  selectedLanguage : String
  recordingMode : String
  audioBuffer : List Int
  isRecording : Bool
  streamOpen : Bool
  isProcessing : Bool
deriving DecidableEq

/-- The `selectedLanguage` value set by `NewAppState` (the only
assignment to that field in the repository). -/
def newAppStateSelectedLanguage : String := "ru"

/-- The initial `AppState` built by `NewAppState` plus the initial
widget texts set in `main`. -/
def initialState : SessionState where
  correctedText := ""
  transcriptionQueue := []
  queueIndicators := 0
  statusText := "Ready"
  activeButton := none
  recordButtonText := "Start"
  addButtonText := "Add"
  shouldCancel := false
  selectedLanguage := newAppStateSelectedLanguage
  recordingMode := "start"
  audioBuffer := []
  isRecording := false
  streamOpen := false
  isProcessing := false

/-- `resetActiveButton` from `openai_client.go` lines 725-735: restores
the active button text and deactivates it. -/
def resetActiveButton (s : SessionState) : SessionState :=
  match s.activeButton with
  | none => s
  | some .record => { s with recordButtonText := "Start", activeButton := none }
  | some .add => { s with addButtonText := "Add", activeButton := none }

/-- `updateQueueIndicators`: one visual indicator per queue entry. -/
def updateQueueIndicators (s : SessionState) : SessionState :=
  { s with queueIndicators := s.transcriptionQueue.length }

/-- The deferred cleanup of `processQueueItem` (lines 1030-1041): pops
the head of the visible queue when non-empty, refreshes the
indicators, and resets the cancel flag. -/
def queueItemCleanup (s : SessionState) : SessionState :=
  let s1 :=
    if 0 < s.transcriptionQueue.length then
      updateQueueIndicators { s with transcriptionQueue := s.transcriptionQueue.tail }
    else s
  { s1 with shouldCancel := false }

/-- The condition under which `Transcribe` (openai_client.go lines
87-92) includes the `language` form field in the request; when false
the service auto-detects the language. -/
def transcribeIncludesLanguageField (language : String) : Bool :=
  !(language == "auto") && !(language == "")

/-- `strings.TrimSpace`: removes leading and trailing whitespace.
Written over the character list so that it evaluates by kernel
reduction. -/
def trimSpace (s : String) : String :=
  String.mk (((s.data.dropWhile Char.isWhitespace).reverse.dropWhile
    Char.isWhitespace).reverse)

/-! ## Queue job (processQueueItem, openai_client.go lines 1029-1138) -/

/-- The external collaborators of one queue job: the MP3 conversion
result, the per-call Transcription Client results, and the values
returned by the successive reads of the shared cancel flag. -/
structure JobEnv where
  mp3Result : Except String (List Nat)
  client : Nat → Except String String
  cancelReads : Nat → Bool

/-- What one run of `processQueueItem` produced: the final state, the
number of Transcription Client calls, the language hint computed for
the transcription request (if the job got that far), and the payload
sent (MP3, or WAV fallback). -/
structure JobResult where
  state : SessionState
  clientCalls : Nat
  languageUsed : Option String
  payload : Option (List Nat)

/-- `processQueueItem`: the body of one asynchronous transcription
job.  Cancel-flag reads are numbered in program order: read 0 before
starting, read 1 before transcribing, reads 2.. inside
`transcribeWithRetry`, and one read after the call returns. -/
def processQueueItem (env : JobEnv) (audioData : List Nat) (mode : String)
    (s0 : SessionState) : JobResult :=
  if env.cancelReads 0 then
    ⟨queueItemCleanup (resetActiveButton { s0 with statusText := "Transcription canceled" }),
      0, none, none⟩
  else
    let s := { s0 with shouldCancel := false }
    let mp3Data :=
      match env.mp3Result with
      | .ok d => d
      | .error _ => CreateWAVFile audioData 16000 1
    if env.cancelReads 1 then
      ⟨queueItemCleanup (resetActiveButton { s with statusText := "Transcription canceled" }),
        0, none, some mp3Data⟩
    else
      let language := if s.selectedLanguage = "" then "ru" else s.selectedLanguage
      let r := transcribeWithRetry env.client (fun k => env.cancelReads (2 + k))
      match r.result with
      | .ok transcription0 =>
        if env.cancelReads (2 + r.reads) then
          ⟨queueItemCleanup (resetActiveButton { s with statusText := "Transcription canceled" }),
            r.calls, some language, some mp3Data⟩
        else
          let transcription := trimSpace transcription0
          if mode = "add" then
            let currentText := s.correctedText ++ transcription
            ⟨queueItemCleanup (resetActiveButton
                { s with correctedText := currentText,
                         statusText := "Transcription completed" }),
              r.calls, some language, some mp3Data⟩
          else
            ⟨queueItemCleanup (resetActiveButton
                { s with correctedText := transcription,
                         statusText := "Transcription completed" }),
              r.calls, some language, some mp3Data⟩
      | .canceled =>
        ⟨queueItemCleanup (resetActiveButton { s with statusText := "Transcribed Failed" }),
          r.calls, some language, some mp3Data⟩
      | .failed _ =>
        ⟨queueItemCleanup (resetActiveButton { s with statusText := "Transcribed Failed" }),
          r.calls, some language, some mp3Data⟩

/-! ## Processing pipeline (processAudio, openai_client.go lines 832-936) -/

/-- Minimum recording duration: 3 seconds at 16 kHz. -/
def minSamples : Nat := 16000 * 3

/-- The two-newline separator reserved in the text sink for an Append
recording. -/
def blankSep : String := String.mk [Char.ofNat 10, Char.ofNat 10]

/-- The placeholder-separator removal used by `CancelRecording` and by
the too-short branch of `processAudio`: drops a trailing blank line
reserved for an Append recording. -/
def removeAppendPlaceholder (text : String) : String :=
  if 2 ≤ text.length ∧ text.endsWith blankSep then
    text.dropRight 2
  else text

/-- The int16-to-little-endian-bytes conversion in `processAudio`. -/
def pcmBytes (samples : List Int) : List Nat :=
  (samples.map (fun sample =>
    [(sample % 65536).toNat % 256, (sample % 65536).toNat / 256])).flatten

/-- `addToQueue`: appends a queue entry, refreshes the indicators, and
(modelled by the Bool) spawns the asynchronous `processQueueItem`
job.  Empty audio data is rejected with a status message. -/
def addToQueue (audioData : List Nat) (mode : String) (s : SessionState) :
    SessionState × Bool :=
  if audioData.length = 0 then
    ({ s with statusText := "No audio data to process" }, false)
  else
    (updateQueueIndicators { s with transcriptionQueue := s.transcriptionQueue ++ [mode] },
      true)

/-- The deferred epilogue of `processAudio`: clears the processing and
cancel flags. -/
def processAudioFinish (s : SessionState) : SessionState :=
  { s with isProcessing := false, shouldCancel := false }

/-- `processAudio`: the pipeline triggered by `StopRecording`.  The
Bool reports whether a queue job was spawned.  Cancel-flag reads are
numbered 0-3 in program order (before starting, before converting,
before saving, before enqueueing). -/
def processAudio (cancelReads : Nat → Bool) (s0 : SessionState) : SessionState × Bool :=
  let s := { s0 with isProcessing := true, shouldCancel := false }
  if cancelReads 0 then
    (processAudioFinish (resetActiveButton { s with statusText := "Processing canceled" }), false)
  else if s.audioBuffer.length = 0 then
    (processAudioFinish (resetActiveButton { s with statusText := "No audio recorded" }), false)
  else if s.audioBuffer.length < minSamples then
    let s1 := { s with statusText := "Recording too short (minimum 3 seconds)" }
    let s2 :=
      if s1.recordingMode = "add" then
        { s1 with correctedText := removeAppendPlaceholder s1.correctedText }
      else s1
    (processAudioFinish (resetActiveButton s2), false)
  else if cancelReads 1 then
    (processAudioFinish (resetActiveButton { s with statusText := "Processing canceled" }), false)
  else
    let audioBytes := pcmBytes s.audioBuffer
    if cancelReads 2 then
      (processAudioFinish (resetActiveButton { s with statusText := "Processing canceled" }), false)
    else if cancelReads 3 then
      (processAudioFinish (resetActiveButton { s with statusText := "Processing canceled" }), false)
    else
      let sq := addToQueue audioBytes s.recordingMode s
      let s3 := { sq.1 with statusText :=
        "Processing... (" ++ toString sq.1.transcriptionQueue.length ++ " in queue)" }
      (processAudioFinish s3, sq.2)

/-- The text-sink reservation performed by `onAddButtonClick`
(openai_client.go lines 969-976) when an Append recording starts:
trims the current text and, when non-empty, appends a blank-line
separator. -/
def reserveAppendText (text : String) : String :=
  let currentText := trimSpace text
  if currentText ≠ "" then currentText ++ blankSep
  else ""

/-! ## StartRecording (openai_client.go lines 646-681) -/

/-- `StartRecording`: opens and starts the capture stream (results of
the two portaudio calls are oracles), clears the buffer, marks the
session recording and updates the active button and status.  There is
no check that a recording is already in progress. -/
def StartRecording (openResult : Except String Unit) (startResult : Except String Unit)
    (s : SessionState) : Except String Unit × SessionState :=
  match openResult with
  | .error e => (.error ("failed to open audio stream: " ++ e), s)
  | .ok _ =>
    let s1 := { s with streamOpen := true, audioBuffer := [] }
    match startResult with
    | .error e => (.error ("failed to start audio stream: " ++ e), s1)
    | .ok _ =>
      let s2 := { s1 with isRecording := true }
      let s3 :=
        match s2.activeButton with
        | none => s2
        | some .record => { s2 with recordButtonText := "Send" }
        | some .add => { s2 with addButtonText := "Send" }
      (.ok (), { s3 with statusText := "Recording..." })

/-! ## Concrete states and environments for instantiating the theorems -/

/-- A state in which a recording is in progress (stream open, record
button active). -/
def recordingState : SessionState :=
  { initialState with
      isRecording := true
      streamOpen := true
      activeButton := some .record
      recordButtonText := "Send"
      statusText := "Recording..."
      audioBuffer := [1, 2, 3] }

/-- A state with one pending queue entry, as left by `addToQueue`
after a Replace recording stopped. -/
def oneJobState : SessionState :=
  { initialState with
      transcriptionQueue := ["start"]
      queueIndicators := 1
      activeButton := some .record
      recordButtonText := "Send"
      statusText := "Processing... (1 in queue)" }

/-- A state with one pending Append queue entry whose text sink holds
the reservation made for previous content "a " (trailing blank). -/
def oneJobAddState : SessionState :=
  { initialState with
      correctedText := reserveAppendText "a "
      transcriptionQueue := ["add"]
      queueIndicators := 1
      activeButton := some .add
      addButtonText := "Send"
      statusText := "Processing... (1 in queue)"
      recordingMode := "add" }

/-- Environment: MP3 conversion succeeds, the client answers on the
first call, the cancel flag is never set. -/
def envSuccess : JobEnv :=
  ⟨.ok [7], fun _ => .ok " hello ", fun _ => false⟩

/-- Environment: the client answers on the first call, and the cancel
flag reads true exactly at read 3 — the checkpoint after the
successful client call returns. -/
def envLateCancel : JobEnv :=
  ⟨.ok [7], fun _ => .ok "late result", fun k => k == 3⟩

/-- Environment: the cancel flag reads true first at read 2 — the
first read inside the retry loop, before any client call. -/
def envMidLoopCancel : JobEnv :=
  ⟨.ok [7], fun _ => .error "boom", fun k => k == 2⟩

/-- Environment: every client call fails, the cancel flag is never
set. -/
def envAllFail : JobEnv :=
  ⟨.ok [7], fun _ => .error "boom", fun _ => false⟩

/-- Environment: the cancel flag is already set at read 0, before the
job dispatches any work. -/
def envPreCancel : JobEnv :=
  ⟨.ok [7], fun _ => .ok "x", fun k => k == 0⟩

/-- A state captured right after a too-short Append recording stopped:
three samples in the buffer and the Append reservation in the sink. -/
def shortAddState : SessionState :=
  { initialState with
      correctedText := reserveAppendText "hi"
      activeButton := some .add
      addButtonText := "Send"
      statusText := "Processing..."
      recordingMode := "add"
      audioBuffer := [1, 2, 3] }

/-! ## Helper lemmas -/

theorem createWAVFile_16k_mono_layout (pcm : List Nat)
    (h : pcm.length + 44 ≤ 4294967296) :
    CreateWAVFile pcm 16000 1 =
      [82, 73, 70, 70] ++ u32le (36 + pcm.length) ++
      [87, 65, 86, 69] ++ [102, 109, 116, 32] ++
      u32le 16 ++ u16le 1 ++ u16le 1 ++ u32le 16000 ++
      u32le 32000 ++ u16le 2 ++ u16le 16 ++
      [100, 97, 116, 97] ++ u32le pcm.length ++ pcm := by
  have h1 : pcm.length % 4294967296 = pcm.length := Nat.mod_eq_of_lt (by omega)
  have h2 : (36 + pcm.length) % 4294967296 = 36 + pcm.length := Nat.mod_eq_of_lt (by omega)
  simp [CreateWAVFile, h1, h2]

theorem decodeWAVHeader_createWAVFile (pcm : List Nat)
    (h : pcm.length + 44 ≤ 4294967296) :
    decodeWAVHeader (CreateWAVFile pcm 16000 1) = some ⟨16000, 1, 16, pcm.length⟩ := by
  have h1 : pcm.length % 4294967296 = pcm.length := Nat.mod_eq_of_lt (by omega)
  simp [CreateWAVFile, u32le, u16le, h1, decodeWAVHeader]
  omega

/-! ## Claim theorems -/

/-- C3: for every PCM byte sequence (of representable size),
`CreateWAVFile` with sample rate 16000 and 1 channel produces exactly
the fallback container layout — RIFF/WAVE/fmt/data tags, file size
equal to total length minus 8, format-chunk-size 16, format code 1,
the channel count, sample rate, byte rate 16000*1*2, block align 1*2,
bits-per-sample 16, data size equal to the PCM length, then the PCM
bytes verbatim — and decoding the header of the encoding of 16000 zero
16-bit samples (32000 bytes) reproduces sampleRate 16000,
numChannels 1, bitsPerSample 16, dataSize 32000. -/
theorem CreateWAVFile_layout_roundtrip (pcm : List Nat)
    (h : pcm.length + 44 ≤ 4294967296) :
    CreateWAVFile pcm 16000 1 =
      [82, 73, 70, 70] ++ u32le (36 + pcm.length) ++
      [87, 65, 86, 69] ++ [102, 109, 116, 32] ++
      u32le 16 ++ u16le 1 ++ u16le 1 ++ u32le 16000 ++
      u32le (16000 * 1 * 2) ++ u16le (1 * 2) ++ u16le 16 ++
      [100, 97, 116, 97] ++ u32le pcm.length ++ pcm ∧
    (CreateWAVFile pcm 16000 1).length = pcm.length + 44 ∧
    36 + pcm.length = (CreateWAVFile pcm 16000 1).length - 8 ∧
    decodeWAVHeader (CreateWAVFile pcm 16000 1) = some ⟨16000, 1, 16, pcm.length⟩ ∧
    decodeWAVHeader (CreateWAVFile (List.replicate 32000 0) 16000 1) =
      some ⟨16000, 1, 16, 32000⟩ := by
  have hlay := createWAVFile_16k_mono_layout pcm h
  have hlen : (CreateWAVFile pcm 16000 1).length = pcm.length + 44 := by
    rw [hlay]; simp [u32le, u16le]
  refine ⟨by rw [hlay], hlen, by omega, decodeWAVHeader_createWAVFile pcm h, ?_⟩
  have hrep := decodeWAVHeader_createWAVFile (List.replicate 32000 0)
    (by simp only [List.length_replicate]; omega)
  simpa only [List.length_replicate] using hrep

/-- Witness for C3 at the spec's round-trip input: one second of
silence, 16000 zero samples encoded as 32000 zero bytes. -/
theorem CreateWAVFile_layout_roundtrip_witness :
    (List.replicate 32000 (0 : Nat)).length + 44 ≤ 4294967296 ∧
    decodeWAVHeader (CreateWAVFile (List.replicate 32000 (0 : Nat)) 16000 1) =
      some ⟨16000, 1, 16, 32000⟩ :=
  ⟨by simp only [List.length_replicate]; omega,
    (CreateWAVFile_layout_roundtrip (List.replicate 32000 0)
      (by simp only [List.length_replicate]; omega)).2.2.2.2⟩

@[simp] theorem resetActiveButton_correctedText (s : SessionState) :
    (resetActiveButton s).correctedText = s.correctedText := by
  unfold resetActiveButton
  cases h : s.activeButton with
  | none => rfl
  | some b => cases b <;> rfl

@[simp] theorem resetActiveButton_transcriptionQueue (s : SessionState) :
    (resetActiveButton s).transcriptionQueue = s.transcriptionQueue := by
  unfold resetActiveButton
  cases h : s.activeButton with
  | none => rfl
  | some b => cases b <;> rfl

@[simp] theorem resetActiveButton_queueIndicators (s : SessionState) :
    (resetActiveButton s).queueIndicators = s.queueIndicators := by
  unfold resetActiveButton
  cases h : s.activeButton with
  | none => rfl
  | some b => cases b <;> rfl

@[simp] theorem resetActiveButton_statusText (s : SessionState) :
    (resetActiveButton s).statusText = s.statusText := by
  unfold resetActiveButton
  cases h : s.activeButton with
  | none => rfl
  | some b => cases b <;> rfl

@[simp] theorem resetActiveButton_shouldCancel (s : SessionState) :
    (resetActiveButton s).shouldCancel = s.shouldCancel := by
  unfold resetActiveButton
  cases h : s.activeButton with
  | none => rfl
  | some b => cases b <;> rfl

@[simp] theorem resetActiveButton_isProcessing (s : SessionState) :
    (resetActiveButton s).isProcessing = s.isProcessing := by
  unfold resetActiveButton
  cases h : s.activeButton with
  | none => rfl
  | some b => cases b <;> rfl

@[simp] theorem resetActiveButton_activeButton (s : SessionState) :
    (resetActiveButton s).activeButton = none := by
  unfold resetActiveButton
  cases h : s.activeButton with
  | none => exact h
  | some b => cases b <;> rfl

@[simp] theorem queueItemCleanup_correctedText (s : SessionState) :
    (queueItemCleanup s).correctedText = s.correctedText := by
  unfold queueItemCleanup updateQueueIndicators
  split <;> rfl

@[simp] theorem queueItemCleanup_statusText (s : SessionState) :
    (queueItemCleanup s).statusText = s.statusText := by
  unfold queueItemCleanup updateQueueIndicators
  split <;> rfl

@[simp] theorem queueItemCleanup_activeButton (s : SessionState) :
    (queueItemCleanup s).activeButton = s.activeButton := by
  unfold queueItemCleanup updateQueueIndicators
  split <;> rfl

@[simp] theorem queueItemCleanup_shouldCancel (s : SessionState) :
    (queueItemCleanup s).shouldCancel = false := rfl

theorem queueItemCleanup_queue (s : SessionState) (h : s.transcriptionQueue ≠ []) :
    (queueItemCleanup s).transcriptionQueue = s.transcriptionQueue.tail ∧
    (queueItemCleanup s).queueIndicators = s.transcriptionQueue.tail.length := by
  have hp : 0 < s.transcriptionQueue.length := List.length_pos.mpr h
  unfold queueItemCleanup updateQueueIndicators
  simp [hp]

theorem retryLoop_calls_le (client : Nat → Except String String) (cancels : Nat → Bool) :
    ∀ (rem reads calls : Nat) (lastErr : Option String),
      (retryLoop client cancels rem reads calls lastErr).calls ≤ calls + rem := by
  intro rem
  induction rem with
  | zero =>
    intro reads calls lastErr
    simp [retryLoop]
  | succ n ih =>
    intro reads calls lastErr
    simp only [retryLoop]
    split
    · simp
    · split
      · simp
      · split
        · split
          · simp
          · exact (ih _ _ _).trans (by omega)
        · simp

/-- C1: for every transcription job, `transcribeWithRetry` makes at
most 3 client calls; with all cancel reads false and every call
failing it retries to the cap and surfaces the failure carrying the
last underlying error; a cancel observed before the first attempt, or
between attempt 1 and attempt 2, stops the loop with no further
client call; and a job whose cancel flag is already set before it
dispatches makes zero Transcription Client calls. -/
theorem transcribeWithRetry_attempt_and_cancel_policy
    (client : Nat → Except String String) (cancels : Nat → Bool) :
    (transcribeWithRetry client cancels).calls ≤ 3 ∧
    (cancels 0 = true → transcribeWithRetry client cancels = ⟨.canceled, 0, 1⟩) ∧
    (∀ es : Nat → String, (∀ n, client n = .error (es n)) → (∀ k, cancels k = false) →
      transcribeWithRetry client cancels = ⟨.failed (some (es 2)), 3, 5⟩) ∧
    (∀ e, client 0 = .error e → cancels 0 = false → cancels 1 = true →
      transcribeWithRetry client cancels = ⟨.canceled, 1, 2⟩) ∧
    (∀ (env : JobEnv) (audioData : List Nat) (mode : String) (s : SessionState),
      env.cancelReads 0 = true → (processQueueItem env audioData mode s).clientCalls = 0) := by
  refine ⟨?_, ?_, ?_, ?_, ?_⟩
  · simpa [transcribeWithRetry, maxRetries] using retryLoop_calls_le client cancels 3 0 0 none
  · intro h0
    simp [transcribeWithRetry, maxRetries, retryLoop, h0]
  · intro es hc hk
    simp [transcribeWithRetry, maxRetries, retryLoop, hc, hk]
  · intro e h0 hc0 hc1
    simp [transcribeWithRetry, maxRetries, retryLoop, h0, hc0, hc1]
  · intro env audioData mode s h0
    simp [processQueueItem, h0]

/-- Witness for C1: with a client that always fails and no
cancellation, the job fails after exactly 3 calls carrying the last
error, and with the flag set before dispatch the job makes zero client
calls. -/
theorem transcribeWithRetry_attempt_and_cancel_policy_witness :
    transcribeWithRetry (fun _ => .error "boom") (fun _ => false) =
      ⟨.failed (some "boom"), 3, 5⟩ ∧
    (processQueueItem envPreCancel [7] "start" oneJobState).clientCalls = 0 :=
  ⟨(transcribeWithRetry_attempt_and_cancel_policy (fun _ => .error "boom")
      (fun _ => false)).2.2.1 (fun _ => "boom") (fun _ => rfl) (fun _ => rfl),
   (transcribeWithRetry_attempt_and_cancel_policy (fun _ => .ok "x")
      (fun _ => false)).2.2.2.2 envPreCancel [7] "start" oneJobState rfl⟩

@[simp] theorem processAudioFinish_correctedText (s : SessionState) :
    (processAudioFinish s).correctedText = s.correctedText := rfl

@[simp] theorem processAudioFinish_statusText (s : SessionState) :
    (processAudioFinish s).statusText = s.statusText := rfl

@[simp] theorem processAudioFinish_activeButton (s : SessionState) :
    (processAudioFinish s).activeButton = s.activeButton := rfl

@[simp] theorem processAudioFinish_transcriptionQueue (s : SessionState) :
    (processAudioFinish s).transcriptionQueue = s.transcriptionQueue := rfl

@[simp] theorem processAudioFinish_isProcessing (s : SessionState) :
    (processAudioFinish s).isProcessing = false := rfl

@[simp] theorem processAudioFinish_shouldCancel (s : SessionState) :
    (processAudioFinish s).shouldCancel = false := rfl

/-- C2: for every non-empty recorded buffer with fewer than 48000
samples (and no cancellation racing the pipeline), `processAudio`
reports the too-short status, removes the placeholder separator when
the recording had Append intent, leaves the sink unchanged otherwise,
resets the recording-control UI, creates no queue entry and spawns no
transcription job (so the Transcription Client is never invoked). -/
theorem processAudio_short_recording (cancelReads : Nat → Bool) (s : SessionState)
    (h0 : cancelReads 0 = false)
    (hne : s.audioBuffer ≠ [])
    (hshort : s.audioBuffer.length < 48000) :
    (processAudio cancelReads s).1.statusText =
      "Recording too short (minimum 3 seconds)" ∧
    (s.recordingMode = "add" →
      (processAudio cancelReads s).1.correctedText =
        removeAppendPlaceholder s.correctedText) ∧
    (s.recordingMode ≠ "add" →
      (processAudio cancelReads s).1.correctedText = s.correctedText) ∧
    (processAudio cancelReads s).1.activeButton = none ∧
    (processAudio cancelReads s).1.isProcessing = false ∧
    (processAudio cancelReads s).1.transcriptionQueue = s.transcriptionQueue ∧
    (processAudio cancelReads s).2 = false := by
  have hlen0 : ¬ s.audioBuffer.length = 0 := by
    have := List.length_pos.mpr hne
    omega
  have hmin : s.audioBuffer.length < minSamples := by
    simpa [minSamples] using hshort
  by_cases hm : s.recordingMode = "add" <;>
    simp [processAudio, h0, hlen0, hmin, hm]

/-- Witness for C2: a 3-sample Append recording is rejected as too
short, the reservation is undone, and no queue job is spawned. -/
theorem processAudio_short_recording_witness :
    shortAddState.audioBuffer ≠ [] ∧ shortAddState.audioBuffer.length < 48000 ∧
    (processAudio (fun _ => false) shortAddState).1.statusText =
      "Recording too short (minimum 3 seconds)" ∧
    (processAudio (fun _ => false) shortAddState).2 = false := by
  have h := processAudio_short_recording (fun _ => false) shortAddState rfl
    (by decide) (by decide)
  exact ⟨by decide, by decide, h.1, h.2.2.2.2.2.2⟩

/-- C4: for every queue job whose Transcription Client call returns
successfully, if the cancel flag is set when the call returns, the job
leaves the text sink unchanged, reports the neutral canceled status,
and terminates through its cleanup path (button reset, flag
cleared) instead of merging the text. -/
theorem processQueueItem_late_cancel_discards_result
    (env : JobEnv) (audioData : List Nat) (mode : String) (s : SessionState) (t : String)
    (h0 : env.cancelReads 0 = false) (h1 : env.cancelReads 1 = false)
    (hr : (transcribeWithRetry env.client (fun k => env.cancelReads (2 + k))).result = .ok t)
    (hc : env.cancelReads
        (2 + (transcribeWithRetry env.client (fun k => env.cancelReads (2 + k))).reads) = true) :
    (processQueueItem env audioData mode s).state.correctedText = s.correctedText ∧
    (processQueueItem env audioData mode s).state.statusText = "Transcription canceled" ∧
    (processQueueItem env audioData mode s).state.activeButton = none ∧
    (processQueueItem env audioData mode s).state.shouldCancel = false := by
  simp [processQueueItem, h0, h1, hr, hc]

/-- Witness for C4: a cancel arriving at the checkpoint right after a
successful call discards the late result. -/
theorem processQueueItem_late_cancel_discards_result_witness :
    (processQueueItem envLateCancel [7] "start" oneJobState).state.correctedText =
      oneJobState.correctedText ∧
    (processQueueItem envLateCancel [7] "start" oneJobState).state.statusText =
      "Transcription canceled" :=
  ⟨(processQueueItem_late_cancel_discards_result envLateCancel [7] "start" oneJobState
      "late result" rfl rfl (by decide) (by decide)).1,
   (processQueueItem_late_cancel_discards_result envLateCancel [7] "start" oneJobState
      "late result" rfl rfl (by decide) (by decide)).2.1⟩

/-- C5: for every queue job with Replace intent whose transcription
succeeds and is not canceled, the text sink afterwards equals the
transcription with surrounding whitespace trimmed, exactly, with no
residue of the previous sink content. -/
theorem processQueueItem_replace_sets_trimmed_text
    (env : JobEnv) (audioData : List Nat) (mode : String) (s : SessionState) (t : String)
    (hmode : mode ≠ "add")
    (h0 : env.cancelReads 0 = false) (h1 : env.cancelReads 1 = false)
    (hr : (transcribeWithRetry env.client (fun k => env.cancelReads (2 + k))).result = .ok t)
    (hpost : env.cancelReads
        (2 + (transcribeWithRetry env.client (fun k => env.cancelReads (2 + k))).reads) = false) :
    (processQueueItem env audioData mode s).state.correctedText = trimSpace t ∧
    (processQueueItem env audioData mode s).state.statusText = "Transcription completed" := by
  simp [processQueueItem, h0, h1, hr, hpost, hmode]

/-- Witness for C5: a successful uncanceled Replace job stores the
trimmed transcription. -/
theorem processQueueItem_replace_sets_trimmed_text_witness :
    (processQueueItem envSuccess [7] "start" oneJobState).state.correctedText =
      trimSpace " hello " ∧
    (processQueueItem envSuccess [7] "start" oneJobState).state.statusText =
      "Transcription completed" :=
  ⟨(processQueueItem_replace_sets_trimmed_text envSuccess [7] "start" oneJobState
      " hello " (by decide) rfl rfl (by decide) (by decide)).1,
   (processQueueItem_replace_sets_trimmed_text envSuccess [7] "start" oneJobState
      " hello " (by decide) rfl rfl (by decide) (by decide)).2⟩

/-- C6 counterexample: with previous sink content "a " (trailing
blank) the reservation trims it, so after a successful Append job the
sink holds the trimmed previous text, not the previous text itself as
the claim states. -/
theorem processQueueItem_append_claim_counterexample :
    oneJobAddState.correctedText = reserveAppendText "a " ∧
    (processQueueItem envSuccess [7] "add" oneJobAddState).state.correctedText =
      "a" ++ blankSep ++ "hello" ∧
    "a" ++ blankSep ++ "hello" ≠ "a " ++ blankSep ++ "hello" := by
  refine ⟨rfl, by decide, by decide⟩

/-- C6 (amended): for every queue job with Append intent whose
transcription succeeds and is not canceled, given that the sink still
holds the reservation made at recording start for previous content
`prev`, the sink afterwards equals the trimmed previous text, then the
separator reserved at recording-start time (a blank line when the
trimmed previous text is non-empty, nothing otherwise), then the
trimmed transcription. -/
theorem processQueueItem_append_merges_trimmed_previous
    (env : JobEnv) (audioData : List Nat) (prev : String) (s : SessionState) (t : String)
    (hprev : s.correctedText = reserveAppendText prev)
    (h0 : env.cancelReads 0 = false) (h1 : env.cancelReads 1 = false)
    (hr : (transcribeWithRetry env.client (fun k => env.cancelReads (2 + k))).result = .ok t)
    (hpost : env.cancelReads
        (2 + (transcribeWithRetry env.client (fun k => env.cancelReads (2 + k))).reads) = false) :
    (processQueueItem env audioData "add" s).state.correctedText =
      trimSpace prev ++ (if trimSpace prev = "" then "" else blankSep) ++ trimSpace t := by
  simp [processQueueItem, h0, h1, hr, hpost, hprev, reserveAppendText]
  by_cases hp : trimSpace prev = "" <;> simp [hp]

/-- Witness for C6 at previous content "a ". -/
theorem processQueueItem_append_merges_trimmed_previous_witness :
    (processQueueItem envSuccess [7] "add" oneJobAddState).state.correctedText =
      trimSpace "a " ++ (if trimSpace "a " = "" then "" else blankSep) ++
        trimSpace " hello " :=
  processQueueItem_append_merges_trimmed_previous envSuccess [7] "a " oneJobAddState
    " hello " rfl rfl rfl (by decide) (by decide)

/-- C7 counterexample: a cancel observed at the first read inside the
retry loop terminates the job with a `canceled` retry result and zero
client calls, yet `processQueueItem` reports the generic failure
status, not the neutral canceled status. -/
theorem midRetry_cancel_reported_failed_counterexample :
    (transcribeWithRetry envMidLoopCancel.client
        (fun k => envMidLoopCancel.cancelReads (2 + k))).result = .canceled ∧
    (transcribeWithRetry envMidLoopCancel.client
        (fun k => envMidLoopCancel.cancelReads (2 + k))).calls = 0 ∧
    (processQueueItem envMidLoopCancel [7] "start" oneJobState).state.statusText =
      "Transcribed Failed" ∧
    "Transcribed Failed" ≠ "Transcription canceled" := by
  decide

/-- C7 (amended): a cancellation observed at one of
`processQueueItem`'s own checkpoints (before dispatch, before the
retry call, or after it returns) is reported with the neutral
"Transcription canceled" status; but a cancellation observed inside
the retry loop, although it stops further attempts immediately with a
canceled result, is collapsed into the generic error path and reported
as "Transcribed Failed". -/
theorem processQueueItem_cancel_status_reporting :
    (∀ (env : JobEnv) (audioData : List Nat) (mode : String) (s : SessionState),
      env.cancelReads 0 = true →
        (processQueueItem env audioData mode s).state.statusText =
          "Transcription canceled") ∧
    (∀ (env : JobEnv) (audioData : List Nat) (mode : String) (s : SessionState),
      env.cancelReads 0 = false → env.cancelReads 1 = true →
        (processQueueItem env audioData mode s).state.statusText =
          "Transcription canceled") ∧
    (∀ (env : JobEnv) (audioData : List Nat) (mode : String) (s : SessionState) (t : String),
      env.cancelReads 0 = false → env.cancelReads 1 = false →
      (transcribeWithRetry env.client (fun k => env.cancelReads (2 + k))).result = .ok t →
      env.cancelReads
        (2 + (transcribeWithRetry env.client (fun k => env.cancelReads (2 + k))).reads) = true →
        (processQueueItem env audioData mode s).state.statusText =
          "Transcription canceled") ∧
    (∀ (env : JobEnv) (audioData : List Nat) (mode : String) (s : SessionState),
      env.cancelReads 0 = false → env.cancelReads 1 = false →
      (transcribeWithRetry env.client (fun k => env.cancelReads (2 + k))).result = .canceled →
        (processQueueItem env audioData mode s).state.statusText =
          "Transcribed Failed") := by
  refine ⟨?_, ?_, ?_, ?_⟩
  · intro env audioData mode s h0
    simp [processQueueItem, h0]
  · intro env audioData mode s h0 h1
    simp [processQueueItem, h0, h1]
  · intro env audioData mode s t h0 h1 hr hc
    simp [processQueueItem, h0, h1, hr, hc]
  · intro env audioData mode s h0 h1 hr
    simp [processQueueItem, h0, h1, hr]

/-- Witness for C7: a cancel already pending at the pre-dispatch
checkpoint yields the neutral canceled status. -/
theorem processQueueItem_cancel_status_reporting_witness :
    (processQueueItem envPreCancel [7] "start" oneJobState).state.statusText =
      "Transcription canceled" :=
  processQueueItem_cancel_status_reporting.1 envPreCancel [7] "start" oneJobState rfl

/-- C8 counterexample: calling `StartRecording` while a recording is
already in progress does not fail with any AlreadyRecording error — it
succeeds and opens a second stream. -/
theorem startRecording_no_already_recording_guard_counterexample :
    recordingState.isRecording = true ∧
    (StartRecording (.ok ()) (.ok ()) recordingState).1 = .ok () := by
  exact ⟨rfl, rfl⟩

/-- C8 (amended): `StartRecording` performs no already-recording
check: with the portaudio calls succeeding it returns success from any
state, including one whose recording is in progress (the click
handlers guard via the `isRecording` flag instead); when opening the
capture stream fails it surfaces the device error and leaves the
whole state — in particular the session mode — unchanged. -/
theorem StartRecording_open_failure_and_no_guard :
    (∀ (s : SessionState) (e : String) (startResult : Except String Unit),
      StartRecording (.error e) startResult s =
        (.error ("failed to open audio stream: " ++ e), s)) ∧
    (∀ s : SessionState, (StartRecording (.ok ()) (.ok ()) s).1 = .ok ()) := by
  constructor
  · intro s e startResult
    rfl
  · intro s
    rfl

theorem queueCleanup_shape (s : SessionState) (h : s.transcriptionQueue ≠ []) :
    ∀ X : SessionState, X.transcriptionQueue = s.transcriptionQueue →
      (queueItemCleanup (resetActiveButton X)).transcriptionQueue =
        s.transcriptionQueue.tail ∧
      (queueItemCleanup (resetActiveButton X)).transcriptionQueue.length + 1 =
        s.transcriptionQueue.length ∧
      (queueItemCleanup (resetActiveButton X)).queueIndicators =
        (queueItemCleanup (resetActiveButton X)).transcriptionQueue.length ∧
      (queueItemCleanup (resetActiveButton X)).shouldCancel = false ∧
      (queueItemCleanup (resetActiveButton X)).activeButton = none := by
  intro X hX
  have h2 : (resetActiveButton X).transcriptionQueue ≠ [] := by
    rw [resetActiveButton_transcriptionQueue, hX]
    exact h
  have h3 := queueItemCleanup_queue (resetActiveButton X) h2
  rw [resetActiveButton_transcriptionQueue, hX] at h3
  have hlen : s.transcriptionQueue.tail.length + 1 = s.transcriptionQueue.length := by
    cases hq : s.transcriptionQueue with
    | nil => exact absurd hq h
    | cons a l => simp
  refine ⟨h3.1, ?_, ?_, by simp, by simp⟩
  · rw [h3.1]
    exact hlen
  · rw [h3.1, h3.2]

/-- C9: for every queue job and every terminal outcome — success,
failure, or cancellation at any checkpoint — completing the job
removes one entry from the visible queue, refreshes the queue-size
indicator to the new queue length, resets the cancel flag to false,
and resets the recording-control UI to its idle state. -/
theorem processQueueItem_always_cleans_up
    (env : JobEnv) (audioData : List Nat) (mode : String) (s : SessionState)
    (h : s.transcriptionQueue ≠ []) :
    (processQueueItem env audioData mode s).state.transcriptionQueue =
      s.transcriptionQueue.tail ∧
    (processQueueItem env audioData mode s).state.transcriptionQueue.length + 1 =
      s.transcriptionQueue.length ∧
    (processQueueItem env audioData mode s).state.queueIndicators =
      (processQueueItem env audioData mode s).state.transcriptionQueue.length ∧
    (processQueueItem env audioData mode s).state.shouldCancel = false ∧
    (processQueueItem env audioData mode s).state.activeButton = none := by
  simp only [processQueueItem]
  repeat' split
  all_goals exact queueCleanup_shape s h _ (by simp)

/-- Witness for C9 on a failing job with one queue entry. -/
theorem processQueueItem_always_cleans_up_witness :
    oneJobState.transcriptionQueue ≠ [] ∧
    (processQueueItem envAllFail [7] "start" oneJobState).state.transcriptionQueue = [] ∧
    (processQueueItem envAllFail [7] "start" oneJobState).state.shouldCancel = false ∧
    (processQueueItem envAllFail [7] "start" oneJobState).state.activeButton = none :=
  ⟨by decide,
   (processQueueItem_always_cleans_up envAllFail [7] "start" oneJobState (by decide)).1,
   (processQueueItem_always_cleans_up envAllFail [7] "start" oneJobState (by decide)).2.2.2.1,
   (processQueueItem_always_cleans_up envAllFail [7] "start" oneJobState (by decide)).2.2.2.2⟩

/-- C10: for every queue job that reaches the transcription step, the
language hint handed to `transcribeWithRetry` is the configured
selected language with "ru" as the default for the unset value, hence
never empty; and for the one value the program ever assigns
(`NewAppState` sets "ru" and nothing reassigns it) the `Transcribe`
request includes the language field, so the auto-detection path is
never taken by a queue job. -/
theorem processQueueItem_language_hint
    (env : JobEnv) (audioData : List Nat) (mode : String) (s : SessionState) :
    ∀ l, (processQueueItem env audioData mode s).languageUsed = some l →
      l = (if s.selectedLanguage = "" then "ru" else s.selectedLanguage) ∧
      l ≠ "" ∧
      (s.selectedLanguage = newAppStateSelectedLanguage →
        transcribeIncludesLanguageField l = true) := by
  intro l hl
  have hstep : l = (if s.selectedLanguage = "" then "ru" else s.selectedLanguage) := by
    simp only [processQueueItem] at hl
    repeat' split at hl
    all_goals simp_all
  refine ⟨hstep, ?_, ?_⟩
  · rw [hstep]
    split
    · decide
    · next hc => exact hc
  · intro hru
    rw [hstep, hru]
    decide

/-- Witness for C10: a successful job under the program's configured
language passes the non-empty hint "ru", which `Transcribe` includes
in the request. -/
theorem processQueueItem_language_hint_witness :
    (processQueueItem envSuccess [7] "start" oneJobState).languageUsed = some "ru" ∧
    "ru" ≠ "" ∧ transcribeIncludesLanguageField "ru" = true :=
  ⟨by decide,
   (processQueueItem_language_hint envSuccess [7] "start" oneJobState "ru" (by decide)).2.1,
   (processQueueItem_language_hint envSuccess [7] "start" oneJobState "ru" (by decide)).2.2
     rfl⟩
